import Mathlib

/-!
Shallow embedding of the QLever control script (`src/qlever.py`): the
configuration data model, the command-line renderers for the `index` and
`start` actions, the `set-config` operation on the parsed Qleverfile, and
the effectful skeletons of the `index`, `start`, `stop` and `get-data`
actions (file writes, spawned commands and raised `ActionException`s are
made explicit as data, the commands themselves stay opaque strings).
-/

namespace Qlever

/-- The truthy tokens recognised by the script (`self.yes_values`). -/
def yes_values : List String := ["1", "true", "yes"]

/-! ### shlex.quote

Python's `shlex.quote`: the empty string becomes a pair of single quotes;
a string consisting only of ASCII word characters and the punctuation
characters at-sign, percent, plus, equals, colon, comma, dot, slash, dash
is returned unchanged; otherwise the string is wrapped in single quotes with
every embedded single quote replaced by the five-character sequence
quote, double-quote, quote, double-quote, quote. -/

def shlexSafeExtra : List Char := ['@', '%', '+', '=', ':', ',', '.', '/', '-', '_']

def shlexSafeChar (c : Char) : Bool := c.isAlphanum || shlexSafeExtra.contains c

def shQuoteBody : List Char → List Char
  | [] => []
  | c :: t =>
    if c = '\x27' then '\x27' :: '"' :: '\x27' :: '"' :: '\x27' :: shQuoteBody t
    else c :: shQuoteBody t

def shlex_quote (s : String) : String :=
  if s = "" then "\x27\x27"
  else if s.data.all shlexSafeChar then s
  else "\x27" ++ String.mk (shQuoteBody s.data) ++ "\x27"

/-! ### Configuration sections

One structure per Qleverfile section, holding exactly the options the
actions read. `stxxl_memory_gb` is an `Option` because the script tests
key membership before reading it; all other options are present after the
default-injection performed in `Actions.__init__`. -/

structure IndexConfig where
  cat_files : String
  binary : String
  only_pso_and_pos_permutations : String
  with_text_index : String
  stxxl_memory_gb : Option String
  settings_json : String
deriving DecidableEq

structure ServerConfig where
  binary : String
  num_threads : String
  port : String
  memory_for_queries_gb : String
  cache_max_size_gb : String
  cache_max_size_gb_single_entry : String
  cache_max_num_entries : String
  access_token : String
  only_pso_and_pos_permutations : String
  no_patterns : String
  with_text_index : String
deriving DecidableEq

structure DockerConfig where
  use_docker : String
  image : String
  container_server : String
  container_indexer : String
deriving DecidableEq

structure DataConfig where
  get_data_cmd : String
deriving DecidableEq

structure Config where
  name : String
  index : IndexConfig
  server : ServerConfig
  docker : DockerConfig
  dataCfg : DataConfig
deriving DecidableEq

/-- Default container name for the server, as injected by `Actions.__init__`:
`qlever.server.<name>`. -/
def default_container_server (name : String) : String := "qlever.server." ++ name

/-- Default container name for the indexer: `qlever.indexer.<name>`. -/
def default_container_indexer (name : String) : String := "qlever.indexer." ++ name

/-! ### get_total_file_size

`Actions.get_total_file_size` sums `os.path.getsize` over all glob-matched
files and divides by `1e9`.  The glob is operating-system input; the
embedding takes the list of matched file sizes (in bytes) directly. -/

def get_total_file_size (sizes : List Nat) : ℚ :=
  (sizes.sum : ℚ) / 10 ^ 9

/-! ### Command rendering: index -/

/-- The core index pipeline of `Actions.action_index` before the ulimit and
docker adjustments. -/
def index_base_cmdline (name : String) (c : IndexConfig) : String :=
  let cmdline := c.cat_files ++ " | " ++ c.binary ++ " -F ttl -f -" ++
    " -i " ++ name ++ " -s " ++ name ++ ".settings.json"
  let cmdline := if yes_values.contains c.only_pso_and_pos_permutations then
    cmdline ++ " --only-pso-and-pos-permutations --no-patterns" else cmdline
  let cmdline := if ["from_text_records", "from_text_records_and_literals"].contains c.with_text_index then
    cmdline ++ " -w " ++ name ++ ".wordsfile.tsv" ++ " -d " ++ name ++ ".docsfile.tsv" else cmdline
  let cmdline := if ["from_literals", "from_text_records_and_literals"].contains c.with_text_index then
    cmdline ++ " --text-words-from-literals" else cmdline
  let cmdline := match c.stxxl_memory_gb with
    | some v => cmdline ++ " --stxxl-memory-gb " ++ v
    | none => cmdline
  cmdline ++ " | tee " ++ name ++ ".index-log.txt"

/-- The string prepended when the total input size exceeds 10 GB. -/
def ulimit_adjustment : String := "ulimit -Sn 1048576; "

/-- The index command line after the total-file-size check (`if
total_file_size > 10: cmdline = f"ulimit -Sn 1048576; \x7bcmdline\x7d"`). -/
def index_cmdline_with_ulimit (name : String) (c : IndexConfig) (sizes : List Nat) : String :=
  if get_total_file_size sizes > 10 then ulimit_adjustment ++ index_base_cmdline name c
  else index_base_cmdline name c

/-- The docker wrapping applied to the index command when
`docker.use_docker` is truthy. -/
def index_docker_wrap (d : DockerConfig) (inner : String) : String :=
  "docker run -it --rm -u $(id -u):$(id -g)" ++
  " -v /etc/localtime:/etc/localtime:ro" ++
  " -v $(pwd):/index -w /index" ++
  " --entrypoint bash" ++
  " --name " ++ d.container_indexer ++
  " " ++ d.image ++
  " -c " ++ shlex_quote inner

/-- The full command line printed (and, on the destructive path, executed)
by `Actions.action_index`. -/
def render_index_full (name : String) (c : IndexConfig) (d : DockerConfig) (sizes : List Nat) : String :=
  let cmdline := index_cmdline_with_ulimit name c sizes
  if yes_values.contains d.use_docker then index_docker_wrap d cmdline else cmdline

/-! ### Command rendering: start -/

/-- The server invocation built by `Actions.action_start` before the
docker / nohup wrapping, including the log redirection. -/
def start_base_cmdline (name : String) (s : ServerConfig) : String :=
  let cmdline := s.binary ++
    " -i " ++ name ++
    " -j " ++ s.num_threads ++
    " -p " ++ s.port ++
    " -m " ++ s.memory_for_queries_gb ++
    " -c " ++ s.cache_max_size_gb ++
    " -e " ++ s.cache_max_size_gb_single_entry ++
    " -k " ++ s.cache_max_num_entries
  let cmdline := if s.access_token ≠ "" then cmdline ++ " -a " ++ s.access_token else cmdline
  let cmdline := if yes_values.contains s.only_pso_and_pos_permutations then
    cmdline ++ " --only-pso-and-pos-permutations" else cmdline
  let cmdline := if yes_values.contains s.no_patterns then cmdline ++ " --no-patterns" else cmdline
  let cmdline := if ["from_text_records", "from_literals", "from_text_records_and_literals"].contains s.with_text_index then
    cmdline ++ " -t" else cmdline
  cmdline ++ " > " ++ name ++ ".server-log.txt 2>&1"

/-- The docker wrapping applied to the start command when
`docker.use_docker` is truthy. -/
def start_docker_wrap (s : ServerConfig) (d : DockerConfig) (inner : String) : String :=
  "docker run -d --restart=unless-stopped" ++
  " -u $(id -u):$(id -g)" ++
  " -it -v /etc/localtime:/etc/localtime:ro" ++
  " -v $(pwd):/index" ++
  " -p " ++ s.port ++ ":" ++ s.port ++
  " -w /index" ++
  " --entrypoint bash" ++
  " --name " ++ d.container_server ++
  " " ++ d.image ++
  " -c " ++ shlex_quote inner

/-- The full command line printed (and, on the destructive path, launched)
by `Actions.action_start`: docker wrapping when `use_docker` is truthy,
otherwise `nohup ... &`. -/
def render_start_full (name : String) (s : ServerConfig) (d : DockerConfig) : String :=
  let cmdline := start_base_cmdline name s
  if yes_values.contains d.use_docker then start_docker_wrap s d cmdline
  else "nohup " ++ cmdline ++ " &"

/-! ### The index action

`Actions.action_index`, in order: write `<name>.settings.json`; build the
command line; print it; return if `only_show`; raise `ActionException` if
`glob.glob(f"\x7bself.name\x7d.index.*")` is non-empty; run the command.
Whether the glob matches is host state, passed in as `artifactsExist`. -/

structure IndexOutcome where
  fileWrites : List (String × String)
  printedCmd : String
  executed : Option String
  exc : Option String
deriving DecidableEq

def index_artifacts_msg (name : String) : String :=
  "Index files for dataset " ++ name ++ " already exist, " ++
  "please delete them if you want to rebuild the index"

def action_index (cfg : Config) (sizes : List Nat) (artifactsExist : Bool) (only_show : Bool) : IndexOutcome :=
  let fw := [(cfg.name ++ ".settings.json", cfg.index.settings_json)]
  let cmdline := render_index_full cfg.name cfg.index cfg.docker sizes
  if only_show then ⟨fw, cmdline, none, none⟩
  else if artifactsExist then ⟨fw, cmdline, none, some (index_artifacts_msg cfg.name)⟩
  else ⟨fw, cmdline, some cmdline, none⟩

/-! ### The start action

`Actions.action_start`, up to the launch: build the command line; print
it; return if `only_show`; raise `ActionException` if `alive_check(port)`
succeeds; raise `ActionException` if `net_connections` scanning is enabled
and another process listens on the port; launch via `os.system`.  The
liveness-probe result and the port scan result are host state, passed in
as `alive` and `portBusy`; the polling loop and follow-up curl requests
after the launch do not affect any claim and are not modelled. -/

structure StartOutcome where
  printedCmd : String
  launched : Option String
  exc : Option String
deriving DecidableEq

def start_alive_msg (port : String) : String :=
  "QLever server already running on port " ++ port

def start_port_busy_msg (port : String) : String :=
  "Port " ++ port ++ " is already in use by another process"

def action_start (cfg : Config) (alive netConnEnabled portBusy : Bool) (only_show : Bool) : StartOutcome :=
  let cmdline := render_start_full cfg.name cfg.server cfg.docker
  if only_show then ⟨cmdline, none, none⟩
  else if alive then ⟨cmdline, none, some (start_alive_msg cfg.server.port)⟩
  else if netConnEnabled && portBusy then ⟨cmdline, none, some (start_port_busy_msg cfg.server.port)⟩
  else ⟨cmdline, some cmdline, none⟩

/-! ### The stop action

`Actions.action_stop` builds the regular expression
`f"\x7bbinary\x7d\\S+ -i [^ ]*\x7bname\x7d"`, prints the check message,
returns if `only_show`, then — when the startup docker probe succeeded —
tries `docker stop && docker rm` (a failure is only logged), and finally
scans `psutil.process_iter()`.

The scan loop is modelled faithfully, including its handling of processes
whose `proc.as_dict` raises: the Python `except` clause only logs, so the
loop body continues with the local variables `pinfo` and `cmdline` still
holding the values from the last successfully-read process — or unbound
(a `NameError`, modelled as `StopResult.nameError`) when no process was
read successfully yet.  `re.match` anchors at the start of the string. -/

structure Process where
  attrsOk : Bool
  pid : Nat
  username : String
  cmdline : List String
  killSucceeds : Bool
deriving DecidableEq

/-- `[^ ]*` followed by the literal `name`, matched as a prefix of the
remaining input with arbitrary trailing characters; backtracking over the
length of the `[^ ]*` chunk. -/
def matchNameAfterRun (name : List Char) : List Char → Bool
  | [] => name.isEmpty
  | c :: t => name.isPrefixOf (c :: t) || (!(c == ' ') && matchNameAfterRun name t)

/-- `re.match` of `f"\x7bbin\x7d\\S+ -i [^ ]*\x7bname\x7d"` against `s`
(anchored at the start), for `bin` and `name` free of regex
metacharacters; whitespace is modelled as the space character, the only
separator occurring in the joined command lines. -/
def cmdlineRegexMatch (bin name s : String) : Bool :=
  let l := s.data
  bin.data.isPrefixOf l &&
    (let rest := l.drop bin.data.length
     let run := rest.takeWhile (fun c => !(c == ' '))
     let rest2 := rest.dropWhile (fun c => !(c == ' '))
     !run.isEmpty && " -i ".data.isPrefixOf rest2 && matchNameAfterRun name.data (rest2.drop 4))

inductive StopResult where
  | dockerStopped : StopResult
  | killed : Nat → StopResult
  | actionExc : String → StopResult
  | nameError : StopResult
deriving DecidableEq

def nothing_to_stop_msg : String := "No matching Docker container or process found"

def kill_failed_msg (pid : Nat) : String :=
  "Could not kill process with PID " ++ toString pid

/-- The process-scan loop of `Actions.action_stop`.  `stale` carries the
`(pinfo, cmdline)` pair left over from the last successful `as_dict`
(`none` before the first success). -/
def stopScan (bin name : String) : List Process → Option (Process × String) → StopResult
  | [], _ => .actionExc nothing_to_stop_msg
  | p :: rest, stale =>
    if p.attrsOk then
      let cmdl := String.intercalate " " p.cmdline
      if cmdlineRegexMatch bin name cmdl then
        if p.killSucceeds then .killed p.pid else .actionExc (kill_failed_msg p.pid)
      else stopScan bin name rest (some (p, cmdl))
    else
      match stale with
      | none => .nameError
      | some (q, c) =>
        if cmdlineRegexMatch bin name c then
          if p.killSucceeds then .killed q.pid else .actionExc (kill_failed_msg q.pid)
        else stopScan bin name rest (some (q, c))

structure StopOutcome where
  printedCheck : String
  result : Option StopResult
deriving DecidableEq

def stop_check_message (cfg : Config) : String :=
  "Checking for Docker container with name \"" ++ cfg.docker.container_server ++
  "\" and for processes matching: " ++ cfg.server.binary ++ "\\S+ -i [^ ]*" ++ cfg.name

def action_stop (cfg : Config) (dockerEnabled dockerStopOk : Bool) (procs : List Process) (only_show : Bool) : StopOutcome :=
  let msg := stop_check_message cfg
  if only_show then ⟨msg, none⟩
  else if dockerEnabled && dockerStopOk then ⟨msg, some .dockerStopped⟩
  else ⟨msg, some (stopScan cfg.server.binary cfg.name procs none)⟩

/-! ### The get-data action -/

structure GetDataOutcome where
  printed : String
  executed : Option String
deriving DecidableEq

def action_get_data (cfg : Config) (only_show : Bool) : GetDataOutcome :=
  if cfg.dataCfg.get_data_cmd = "" then ⟨"No GET_DATA_CMD specified in Qleverfile", none⟩
  else if only_show then ⟨cfg.dataCfg.get_data_cmd, none⟩
  else ⟨cfg.dataCfg.get_data_cmd, some cfg.dataCfg.get_data_cmd⟩

/-! ### The parsed Qleverfile and set_config

`ConfigParser` semantics as used by `Actions.set_config`: sections are an
association list (`DEFAULT` kept apart), an option exists in a section
when it is in the section proper or in `DEFAULT`, reading prefers the
section-local value, and assignment writes into the section proper. -/

structure RawConfig where
  defaults : List (String × String)
  sections : List (String × List (String × String))
deriving DecidableEq

def lookupOpt : List (String × String) → String → Option String
  | [], _ => none
  | p :: t, o => if p.1 = o then some p.2 else lookupOpt t o

def has_section (c : RawConfig) (s : String) : Bool :=
  c.sections.any (fun sec => sec.1 == s)

def has_option (c : RawConfig) (s o : String) : Bool :=
  match c.sections.find? (fun sec => sec.1 == s) with
  | none => false
  | some sec => (lookupOpt sec.2 o).isSome || (lookupOpt c.defaults o).isSome

def config_get (c : RawConfig) (s o : String) : Option String :=
  match c.sections.find? (fun sec => sec.1 == s) with
  | none => none
  | some sec =>
    match lookupOpt sec.2 o with
    | some v => some v
    | none => lookupOpt c.defaults o

/-- `self.config[section][option] = value`: replace the section-local
value when present, otherwise add the pair to the section proper. -/
def setOptInList (opts : List (String × String)) (o v : String) : List (String × String) :=
  if (lookupOpt opts o).isSome then
    opts.map (fun p => if p.1 == o then (p.1, v) else p)
  else opts ++ [(o, v)]

def missing_section_msg (s : String) : String :=
  "Section [" ++ s ++ "] does not exist in Qleverfile"

def missing_option_msg (s o : String) : String :=
  "Option " ++ o.toUpper ++ " does not exist in section [" ++ s ++ "] in Qleverfile"

/-- The configuration after a successful assignment: the section(s) named
`s` get the option written into their own dictionary. -/
def set_config_update (c : RawConfig) (s o v : String) : RawConfig :=
  ⟨c.defaults,
   c.sections.map (fun sec => if sec.1 == s then (sec.1, setOptInList sec.2 o v) else sec)⟩

/-- `Actions.set_config`: error out (the script calls `sys.exit(1)`,
leaving the configuration untouched) when the section or the option is
missing, otherwise store the value. -/
def set_config (c : RawConfig) (s o v : String) : Except String RawConfig :=
  if ¬ has_section c s then .error (missing_section_msg s)
  else if ¬ has_option c s o then .error (missing_option_msg s o)
  else .ok (set_config_update c s o v)

/-! ### Substring helper for the rendering claims -/

def listContainsSub (pat : List Char) : List Char → Bool
  | [] => pat.isEmpty
  | c :: t => pat.isPrefixOf (c :: t) || listContainsSub pat t

def strContainsSub (s pat : String) : Bool := listContainsSub pat.data s.data

/-! ### Concrete fixtures used by the closed theorems -/

/-- A minimal configuration for dataset `osm`, native backend. -/
def cexConfig : Config :=
  ⟨"osm",
   ⟨"cat osm.ttl", "IndexBuilderMain", "no", "no", none, "SETTINGS"⟩,
   ⟨"ServerMain", "8", "7000", "5", "5", "1", "100", "", "no", "no", "no"⟩,
   ⟨"false", "adfreiburg/qlever", default_container_server "osm", default_container_indexer "osm"⟩,
   ⟨"wget https://example.org/osm.ttl"⟩⟩

/-- The `[server]` section of the C5 scenario: dataset `wikidata`, port 7001. -/
def wikidataServer : ServerConfig :=
  ⟨"ServerMain", "8", "7001", "5", "5", "1", "100", "", "no", "no", "no"⟩

/-- The `[docker]` section of the C5 scenario: `use_docker=true`, image `myimg`. -/
def wikidataDocker : DockerConfig :=
  ⟨"true", "myimg", default_container_server "wikidata", default_container_indexer "wikidata"⟩

/-- A process whose attributes read fine and whose command line matches
nothing QLever-related. -/
def cexProcIdle : Process := ⟨true, 12, "alice", ["bash"], true⟩

/-- A process whose `as_dict` raises (e.g. it vanished between
`process_iter` and the attribute read). -/
def procUnreadable : Process := ⟨false, 3, "root", ["foo"], true⟩

/-- A second vanished process, first in the scan order of the C10 input. -/
def procVanished : Process := ⟨false, 7, "root", ["sleep", "1"], true⟩

/-- A live QLever server process for dataset `osm`. -/
def procServer : Process := ⟨true, 8, "root", ["ServerMainX", "-i", "osm"], true⟩

/-- A parsed Qleverfile with a `server` and an `index` section. -/
def cexRaw : RawConfig :=
  ⟨[("name", "osm")], [("server", [("port", "7000")]), ("index", [("binary", "IndexBuilderMain")])]⟩

/-! ### Helper lemmas: association-list updates -/

lemma lookupOpt_map_replace (opts : List (String × String)) (o v o' : String) :
    lookupOpt (opts.map (fun p => if p.1 == o then (p.1, v) else p)) o' =
      if o' = o then (lookupOpt opts o).map (fun _ => v) else lookupOpt opts o' := by
  induction opts with
  | nil => by_cases h : o' = o <;> simp [lookupOpt, h]
  | cons p t ih =>
    by_cases hp : p.1 = o <;> by_cases ho : o' = o
    · simp_all [lookupOpt, beq_iff_eq]
    · simp_all [lookupOpt, beq_iff_eq, Ne.symm ho]
    · simp_all [lookupOpt, beq_iff_eq]
    · simp_all [lookupOpt, beq_iff_eq]

lemma lookupOpt_append_single (opts : List (String × String)) (o v o' : String) :
    lookupOpt (opts ++ [(o, v)]) o' =
      match lookupOpt opts o' with
      | some w => some w
      | none => if o' = o then some v else none := by
  induction opts with
  | nil =>
    by_cases h : o' = o
    · simp [lookupOpt, h]
    · simp [lookupOpt, h, Ne.symm h]
  | cons p t ih =>
    by_cases hpo : p.1 = o' <;> simp_all [lookupOpt]

/-- Reading after `setOptInList`: the written option now has value `v`,
every other option is untouched. -/
lemma lookupOpt_setOptInList (opts : List (String × String)) (o v o' : String) :
    lookupOpt (setOptInList opts o v) o' =
      if o' = o then some v else lookupOpt opts o' := by
  unfold setOptInList
  by_cases hs : (lookupOpt opts o).isSome
  · rw [if_pos hs, lookupOpt_map_replace]
    by_cases ho : o' = o
    · obtain ⟨w, hw⟩ := Option.isSome_iff_exists.mp hs
      simp [ho, hw]
    · simp [ho]
  · rw [if_neg hs, lookupOpt_append_single]
    by_cases ho : o' = o
    · subst ho
      have : lookupOpt opts o' = none := Option.not_isSome_iff_eq_none.mp hs
      simp [this]
    · cases hlv : lookupOpt opts o' <;> simp [ho]

/-! ### Helper lemmas: the section map of `set_config_update` -/

lemma find?_sections_map (secs : List (String × List (String × String))) (s s' o v : String) :
    ((secs.map (fun sec => if sec.1 == s then (sec.1, setOptInList sec.2 o v) else sec)).find?
      (fun sec => sec.1 == s')) =
    (secs.find? (fun sec => sec.1 == s')).map
      (fun sec => if sec.1 == s then (sec.1, setOptInList sec.2 o v) else sec) := by
  induction secs with
  | nil => rfl
  | cons p t ih =>
    have hfst : ∀ sec : String × List (String × String),
        (if sec.1 == s then (sec.1, setOptInList sec.2 o v) else sec).1 = sec.1 := by
      intro sec; split <;> rfl
    by_cases hp : p.1 = s'
    · rw [List.map_cons,
        List.find?_cons_of_pos _ (by simp only [hfst]; exact beq_iff_eq.mpr hp),
        List.find?_cons_of_pos _ (by exact beq_iff_eq.mpr hp)]
      rfl
    · rw [List.map_cons,
        List.find?_cons_of_neg _ (by simp only [hfst]; simp only [beq_iff_eq]; exact hp),
        List.find?_cons_of_neg _ (by simp only [beq_iff_eq]; exact hp), ih]

lemma any_sections_map (secs : List (String × List (String × String))) (s s' o v : String) :
    ((secs.map (fun sec => if sec.1 == s then (sec.1, setOptInList sec.2 o v) else sec)).any
      (fun sec => sec.1 == s')) =
    secs.any (fun sec => sec.1 == s') := by
  induction secs with
  | nil => rfl
  | cons p t ih =>
    have hfst : ∀ sec : String × List (String × String),
        (if sec.1 == s then (sec.1, setOptInList sec.2 o v) else sec).1 = sec.1 := by
      intro sec; split <;> rfl
    rw [List.map_cons, List.any_cons, List.any_cons, hfst, ih]

/-! ### Helper lemma: the stop scan on a match-free process list -/

lemma stopScan_no_match (bin name : String) (procs : List Process) :
    ∀ stale : Option (Process × String),
    (∀ p ∈ procs, p.attrsOk = true →
      cmdlineRegexMatch bin name (String.intercalate " " p.cmdline) = false) →
    (∀ q c, stale = some (q, c) → cmdlineRegexMatch bin name c = false) →
    (stale = none → ∀ p ∈ procs.take 1, p.attrsOk = true) →
    stopScan bin name procs stale = .actionExc nothing_to_stop_msg := by
  induction procs with
  | nil => intro stale h1 h2 h3; rfl
  | cons p rest ih =>
    intro stale h1 h2 h3
    by_cases hp : p.attrsOk = true
    · have hm : cmdlineRegexMatch bin name (String.intercalate " " p.cmdline) = false :=
        h1 p (by simp) hp
      simp only [stopScan]
      rw [if_pos hp, if_neg (by simp [hm])]
      refine ih _ (fun q hq hOk => h1 q (List.mem_cons_of_mem _ hq) hOk) ?_ (by intro h; cases h)
      intro q c hqc
      rw [Option.some.injEq, Prod.mk.injEq] at hqc
      rw [← hqc.2]
      exact hm
    · have hp' : ¬ (p.attrsOk = true) := hp
      cases hstale : stale with
      | none =>
        exfalso
        rw [hstale] at h3
        exact hp (h3 rfl p (by simp))
      | some qc =>
        obtain ⟨q, c⟩ := qc
        have hc : cmdlineRegexMatch bin name c = false := h2 q c hstale
        simp only [stopScan]
        rw [if_neg hp', if_neg (by simp [hc])]
        refine ih _ (fun r hr hOk => h1 r (List.mem_cons_of_mem _ hr) hOk) ?_ (by intro h; cases h)
        intro q' c' hqc
        rw [Option.some.injEq, Prod.mk.injEq] at hqc
        rw [← hqc.2]
        exact hc

/-! ## Claim theorems -/

/-- Claim C1 (counterexample): the claim "rendering-only mode creates, modifies
and deletes no file" is false for the `index` action: `action_index`
writes `<name>.settings.json` before the `only_show` early return, so even
with `only_show=True` the file is written. -/
theorem index_only_show_writes_settings_file :
    (action_index cexConfig [] false true).fileWrites = [("osm.settings.json", "SETTINGS")] ∧
    (action_index cexConfig [] false true).fileWrites ≠ [] := by
  exact ⟨rfl, by decide⟩

/-- Claim C1 (amended): in rendering-only mode no command is executed, launched
or scanned for, and the printed command line is byte-identical to the one
the destructive path would execute — but `action_index` does write the
`<name>.settings.json` file even in rendering-only mode (the sole side
effect of any modelled action in this mode; `show-config` and `status`
only print). -/
theorem only_show_pure_preview (cfg : Config) (sizes : List Nat)
    (aE alive nc pb dE dOk : Bool) (procs : List Process) :
    ((action_index cfg sizes aE true).executed = none ∧
     (action_index cfg sizes aE true).exc = none ∧
     (action_index cfg sizes aE true).printedCmd = (action_index cfg sizes aE false).printedCmd ∧
     (action_index cfg sizes aE true).fileWrites =
       [(cfg.name ++ ".settings.json", cfg.index.settings_json)]) ∧
    ((action_start cfg alive nc pb true).launched = none ∧
     (action_start cfg alive nc pb true).exc = none ∧
     (action_start cfg alive nc pb true).printedCmd = (action_start cfg alive nc pb false).printedCmd) ∧
    ((action_stop cfg dE dOk procs true).result = none ∧
     (action_stop cfg dE dOk procs true).printedCheck =
       (action_stop cfg dE dOk procs false).printedCheck) ∧
    ((action_get_data cfg true).executed = none ∧
     (action_get_data cfg true).printed = (action_get_data cfg false).printed) := by
  refine ⟨⟨rfl, rfl, ?_, rfl⟩, ⟨rfl, rfl, ?_⟩, ⟨rfl, ?_⟩, ?_, ?_⟩
  · cases aE <;> rfl
  · cases alive <;> cases nc <;> cases pb <;> rfl
  · cases dE <;> cases dOk <;> rfl
  · by_cases h : cfg.dataCfg.get_data_cmd = "" <;> simp [action_get_data, h]
  · by_cases h : cfg.dataCfg.get_data_cmd = "" <;> simp [action_get_data, h]

/-- C2: running `index` (destructively) while `<name>.index.*` artifacts
exist raises the `ActionException` and never executes the rendered
index-builder command. -/
theorem index_artifacts_precondition (cfg : Config) (sizes : List Nat) :
    (action_index cfg sizes true false).exc = some (index_artifacts_msg cfg.name) ∧
    (action_index cfg sizes true false).executed = none :=
  ⟨rfl, rfl⟩

/-- C3: when the liveness probe on the configured port already succeeds,
the destructive `start` raises the `ActionException` and the launch of the
rendered server command is unreachable. -/
theorem start_alive_blocks_launch (cfg : Config) (nc pb : Bool) :
    (action_start cfg true nc pb false).exc = some (start_alive_msg cfg.server.port) ∧
    (action_start cfg true nc pb false).launched = none :=
  ⟨rfl, rfl⟩

/-- Claim C4 (counterexample): with no docker teardown and a single scanned
process whose attribute retrieval raises (and whose command line `foo`
matches nothing), the destructive `stop` does not fail with the
"nothing to stop" `ActionException` — it crashes with a `NameError`
because the loop-local `cmdline` variable was never bound. -/
theorem stop_nothing_to_stop_crashes :
    cmdlineRegexMatch cexConfig.server.binary cexConfig.name "foo" = false ∧
    (action_stop cexConfig false false [procUnreadable] false).result = some .nameError ∧
    (action_stop cexConfig false false [procUnreadable] false).result ≠
      some (.actionExc nothing_to_stop_msg) := by
  exact ⟨by decide, by decide, by decide⟩

/-- Claim C4 (amended): when no docker teardown succeeds and no successfully
scanned process's command line matches the pattern, the destructive
`stop` fails with the "nothing to stop" `ActionException` — provided the
first scanned process's attribute retrieval succeeds (otherwise the loop
crashes on the unbound `cmdline` local, see the counterexample). -/
theorem stop_no_match_nothing_to_stop (cfg : Config) (dockerEnabled dockerStopOk : Bool)
    (procs : List Process)
    (hdock : (dockerEnabled && dockerStopOk) = false)
    (hnomatch : ∀ p ∈ procs, p.attrsOk = true →
      cmdlineRegexMatch cfg.server.binary cfg.name (String.intercalate " " p.cmdline) = false)
    (hfirst : ∀ p ∈ procs.take 1, p.attrsOk = true) :
    action_stop cfg dockerEnabled dockerStopOk procs false =
      ⟨stop_check_message cfg, some (.actionExc nothing_to_stop_msg)⟩ := by
  unfold action_stop
  rw [if_neg (by simp), if_neg (by simp [hdock])]
  rw [stopScan_no_match cfg.server.binary cfg.name procs none hnomatch
    (fun q c h => by cases h) (fun _ => hfirst)]

/-- Witness for C4 (amended), at the probe-failed backend with one idle,
readable, non-matching process. -/
theorem stop_no_match_nothing_to_stop_witness :
    ((false && true) = false) ∧
    cexProcIdle.attrsOk = true ∧
    cmdlineRegexMatch cexConfig.server.binary cexConfig.name
      (String.intercalate " " cexProcIdle.cmdline) = false ∧
    action_stop cexConfig false true [cexProcIdle] false =
      ⟨stop_check_message cexConfig, some (.actionExc nothing_to_stop_msg)⟩ := by
  refine ⟨rfl, rfl, by decide, ?_⟩
  exact stop_no_match_nothing_to_stop cexConfig false true [cexProcIdle] rfl
    (by decide) (by decide)

/-- C5: with `docker.use_docker` truthy and `docker.image=myimg`, the
rendered `start` command for dataset `wikidata` on port 7001 contains the
image name, the deterministic container name `qlever.server.wikidata`,
the port mapping `7001:7001`, and ends with the inner server invocation
shell-quoted as the single argument after `-c`. -/
theorem start_docker_rendering_wikidata :
    strContainsSub (render_start_full "wikidata" wikidataServer wikidataDocker) "myimg" = true ∧
    strContainsSub (render_start_full "wikidata" wikidataServer wikidataDocker)
      (default_container_server "wikidata") = true ∧
    strContainsSub (render_start_full "wikidata" wikidataServer wikidataDocker)
      " -p 7001:7001 " = true ∧
    render_start_full "wikidata" wikidataServer wikidataDocker =
      "docker run -d --restart=unless-stopped -u $(id -u):$(id -g) -it" ++
      " -v /etc/localtime:/etc/localtime:ro -v $(pwd):/index -p 7001:7001" ++
      " -w /index --entrypoint bash --name qlever.server.wikidata myimg -c " ++
      shlex_quote (start_base_cmdline "wikidata" wikidataServer) := by
  refine ⟨by decide, by decide, by decide, by rfl⟩

/-- Claim C6 (counterexample): a failed startup docker probe does alter the
execution of an action: with a container that would tear down
successfully and no processes, `stop` succeeds when the probe passed and
raises "nothing to stop" when it failed. -/
theorem docker_probe_alters_stop :
    (action_stop cexConfig true true [] false).result = some .dockerStopped ∧
    (action_stop cexConfig false true [] false).result =
      some (.actionExc nothing_to_stop_msg) ∧
    action_stop cexConfig true true [] false ≠ action_stop cexConfig false true [] false := by
  exact ⟨by decide, by decide, by decide⟩

/-- Claim C6 (amended): backend wrapping of the rendered commands is determined
solely by `docker.use_docker`, and a failed probe never blocks an action:
with every probe failed, `stop` still scans processes (its outcome is
independent of whether a docker teardown would have succeeded, which it
no longer attempts) and `start` still launches (the port-occupancy check
is skipped, so a busy port no longer blocks it).  But a failed probe does
alter execution (see the counterexample). -/
theorem probes_never_block_actions (cfg : Config) (dOk dOk' pb : Bool) (procs : List Process) :
    action_stop cfg false dOk procs false = action_stop cfg false dOk' procs false ∧
    (action_start cfg false false pb false).launched =
      some (render_start_full cfg.name cfg.server cfg.docker) ∧
    (action_start cfg false false pb false).exc = none :=
  ⟨rfl, rfl, rfl⟩

/-- C7: the ulimit adjustment is prepended to the rendered index command
if and only if the summed byte sizes of the glob-matched input files,
divided by `1e9`, strictly exceed 10; otherwise the command is unchanged.
Equivalently, the threshold is 10^10 bytes. -/
theorem index_ulimit_threshold (name : String) (c : IndexConfig) (sizes : List Nat) :
    (index_cmdline_with_ulimit name c sizes = ulimit_adjustment ++ index_base_cmdline name c
      ↔ get_total_file_size sizes > 10) ∧
    (index_cmdline_with_ulimit name c sizes = index_base_cmdline name c
      ↔ ¬ get_total_file_size sizes > 10) ∧
    (get_total_file_size sizes > 10 ↔ sizes.sum > 10 ^ 10) := by
  have hne : ulimit_adjustment ++ index_base_cmdline name c ≠ index_base_cmdline name c := by
    intro h
    have hd := congrArg String.data h
    rw [String.data_append] at hd
    have hlen := congrArg List.length hd
    rw [List.length_append] at hlen
    have hzero : ulimit_adjustment.data.length = 0 := by omega
    exact absurd hzero (by decide)
  have hthr : get_total_file_size sizes > 10 ↔ sizes.sum > 10 ^ 10 := by
    unfold get_total_file_size
    rw [gt_iff_lt, lt_div_iff (by norm_num : (0 : ℚ) < 10 ^ 9),
      show (10 : ℚ) * 10 ^ 9 = ((10 ^ 10 : ℕ) : ℚ) by norm_num]
    exact ⟨fun h => by exact_mod_cast h, fun h => by exact_mod_cast h⟩
  by_cases h : get_total_file_size sizes > 10
  · rw [index_cmdline_with_ulimit, if_pos h]
    exact ⟨⟨fun _ => h, fun _ => rfl⟩, ⟨fun he => absurd he hne, fun hn => absurd h hn⟩, hthr⟩
  · rw [index_cmdline_with_ulimit, if_neg h]
    refine ⟨⟨fun he => absurd he.symm hne, fun hc => absurd hc h⟩, ⟨fun _ => h, fun _ => rfl⟩, hthr⟩

/-- C8: `set_config` fails exactly when the section is missing or the
option is missing from the section's merged view, and a successful
assignment stores the value while creating no section and no option in
the merged view. -/
theorem set_config_correct (c : RawConfig) (s o v : String) :
    ((has_section c s && has_option c s o) = false →
      set_config c s o v =
        .error (if has_section c s then missing_option_msg s o else missing_section_msg s)) ∧
    ((has_section c s && has_option c s o) = true →
      set_config c s o v = .ok (set_config_update c s o v) ∧
      config_get (set_config_update c s o v) s o = some v ∧
      (∀ s', has_section (set_config_update c s o v) s' = has_section c s') ∧
      (∀ s' o', has_option (set_config_update c s o v) s' o' = has_option c s' o')) := by
  constructor
  · intro h
    unfold set_config
    by_cases hs : has_section c s = true
    · have ho : has_option c s o = false := by
        rw [hs, Bool.true_and] at h
        exact h
      rw [if_neg (by simp [hs]), if_pos (by simp [ho]), if_pos hs]
    · have hs' : has_section c s = false := Bool.not_eq_true _ ▸ eq_false_of_ne_true hs
      rw [if_pos (by simp [hs']), if_neg (by simp [hs'])]
  · intro h
    rw [Bool.and_eq_true] at h
    obtain ⟨hs, ho⟩ := h
    have hany : c.sections.any (fun sec => sec.1 == s) = true := hs
    have hex : (c.sections.find? (fun sec => sec.1 == s)).isSome := by
      rw [List.find?_isSome]
      exact List.any_eq_true.mp hany
    obtain ⟨sec₀, hfind⟩ := Option.isSome_iff_exists.mp hex
    have hsec := List.find?_some hfind
    refine ⟨?_, ?_, ?_, ?_⟩
    · unfold set_config
      rw [if_neg (by simp [hs]), if_neg (by simp [ho])]
    · unfold config_get set_config_update
      rw [find?_sections_map, hfind]
      simp only [Option.map_some', if_pos hsec]
      rw [lookupOpt_setOptInList, if_pos rfl]
    · intro s'
      unfold has_section set_config_update
      exact any_sections_map c.sections s s' o v
    · intro s' o'
      unfold has_option set_config_update
      rw [find?_sections_map]
      cases hf : c.sections.find? (fun sec => sec.1 == s') with
      | none => simp
      | some sec₁ =>
        simp only [Option.map_some']
        by_cases hss : (sec₁.1 == s) = true
        · rw [if_pos hss]
          simp only
          rw [lookupOpt_setOptInList]
          by_cases ho' : o' = o
          · subst ho'
            rw [if_pos rfl]
            have hf1 := List.find?_some hf
            have h1 : sec₁.1 = s' := beq_iff_eq.mp hf1
            have h2 : sec₁.1 = s := beq_iff_eq.mp hss
            have hs'eq : s' = s := by rw [← h1, h2]
            subst hs'eq
            unfold has_option at ho
            rw [hf] at ho
            simp only [Option.isSome_some, Bool.true_or]
            exact ho.symm
          · rw [if_neg ho']
        · rw [if_neg hss]

/-- Witness for C8, setting `server.port` on a configuration where both
the section and the option exist. -/
theorem set_config_correct_witness :
    (has_section cexRaw "server" && has_option cexRaw "server" "port") = true ∧
    set_config cexRaw "server" "port" "7001" =
      .ok (set_config_update cexRaw "server" "port" "7001") ∧
    config_get (set_config_update cexRaw "server" "port" "7001") "server" "port" = some "7001" ∧
    has_section (set_config_update cexRaw "server" "port" "7001") "ui" =
      has_section cexRaw "ui" ∧
    has_option (set_config_update cexRaw "server" "port" "7001") "index" "port" =
      has_option cexRaw "index" "port" := by
  have h := (set_config_correct cexRaw "server" "port" "7001").2 (by decide)
  exact ⟨by decide, h.1, h.2.1, h.2.2.1 "ui", h.2.2.2 "index" "port"⟩

/-- C9: in rendering-only mode the `index` action returns successfully
whether or not index artifacts exist — the artifacts-already-exist check
sits after the `only_show` early return, on the destructive path only. -/
theorem index_only_show_ignores_artifacts (cfg : Config) (sizes : List Nat) (aE : Bool) :
    action_index cfg sizes aE true = action_index cfg sizes false true ∧
    (action_index cfg sizes aE true).exc = none ∧
    (action_index cfg sizes aE true).executed = none :=
  ⟨rfl, rfl, rfl⟩

/-- C10: the claim that a process whose attribute retrieval raises is
skipped is wrong: the `except` clause of the scan loop in
`Actions.action_stop` only logs and does not `continue`, so `re.match` is
still evaluated — against the stale (or, for a first process, unbound)
`cmdline` local.  At this input the first process's retrieval fails, the
loop hits the unbound local (`NameError`) and `stop` crashes instead of
skipping to the second process, whose command line matches and which the
intended behaviour would have killed. -/
theorem stop_scan_stale_cmdline_bug :
    cmdlineRegexMatch cexConfig.server.binary cexConfig.name
      (String.intercalate " " procServer.cmdline) = true ∧
    (action_stop cexConfig false false [procVanished, procServer] false).result =
      some .nameError := by
  exact ⟨by decide, by decide⟩

end Qlever
